import Mathlib

/-!
Shallow embedding of the ACORD submission quality validator
(`src/validators/quality_validator.py` together with the record model of
`src/models/submission.py`), and proofs about the claims of the
specification of this repository.

Modelling conventions:
* Python `float` / `Decimal` values are modelled as `ℚ`; `float(Decimal)`
  coercion is the identity on the rational value.
* Python `round(x, 2)` is modelled as exact round-half-to-even on `ℚ`
  scaled by 100 (`round2`).
* A compiled regex is modelled as its source text together with its
  matching function (`RegexPat`); the one concrete regex of the validator,
  `^\d{6}$`, is modelled explicitly (`naicsMatch`) with Python `re`
  semantics, where `$` also matches just before a single trailing newline.
  Python `\d` additionally accepts non-ASCII Unicode decimal digits; the
  model restricts digits to ASCII, which is the alphabet used by every
  theorem below.
* A Python function that can raise is modelled with `Except String`.
-/

namespace AcordDQ

/-- Validation severity levels (`class Severity(Enum)` of the validator). -/
inductive Severity where
  | error
  | warning
  | info
deriving DecidableEq, Repr

/-- Result of a single validation check (`@dataclass ValidationResult`). -/
structure ValidationResult where
  rule_id : String
  rule_name : String
  passed : Bool
  severity : Severity
  error_message : Option String
  field_name : Option String
  expected_value : Option String := none
  actual_value : Option String := none
deriving DecidableEq, Repr

/-- A dynamically-typed attribute value of a submission record, as seen by
the validator's `getattr`-driven field access: a string, an integer, or a
decimal/float number. -/
inductive Value where
  | vStr (s : String)
  | vInt (n : ℤ)
  | vNum (q : ℚ)
deriving DecidableEq, Repr

/-- Python `str()` of an attribute value (exact for strings and integers;
for rationals the rendering is `toString`, which no theorem below depends
on for non-integral values). -/
def pyStr : Value → String
  | .vStr s => s
  | .vInt n => toString n
  | .vNum q => toString q

/-- Python `str.upper()` (character-list formulation; ASCII case mapping,
which covers every field name of the contract). -/
def pyUpper (s : String) : String := String.mk (s.data.map Char.toUpper)

/-- Python `str.strip()`: drop whitespace from both ends (character-list
formulation). -/
def pyStrip (s : String) : String :=
  String.mk
    (((s.data.dropWhile Char.isWhitespace).reverse.dropWhile
      Char.isWhitespace).reverse)

/-- Replace every leftmost, non-overlapping occurrence of `pat` by `rep`
(character-list formulation with fuel for structural recursion; the fuel
is the list length, enough because a non-empty `pat` consumes at least one
character per occurrence). -/
def pyReplaceAux (pat rep : List Char) : ℕ → List Char → List Char
  | 0, cs => cs
  | fuel + 1, cs =>
      match cs with
      | [] => []
      | c :: rest =>
          if pat ≠ [] ∧ pat.isPrefixOf cs then
            rep ++ pyReplaceAux pat rep fuel (cs.drop pat.length)
          else
            c :: pyReplaceAux pat rep fuel rest

/-- Python `str.replace(pat, rep)` for a non-empty pattern (the validator
only ever replaces literal `${...}` placeholder tokens, never the empty
string). -/
def pyReplace (s pat rep : String) : String :=
  if pat = "" then s
  else String.mk (pyReplaceAux pat.data rep.data s.data.length s.data)

/-- Python `float(str)` on a decimal literal: optional sign, digit string
with an optional single decimal point (no exponent, infinity, nan or
underscore forms, which never occur in the claims below); `none` models the
`ValueError` raise of `float`. -/
def pyParseFloat (s : String) : Option ℚ :=
  let cs := (pyStrip s).data
  let signAndRest : ℚ × List Char :=
    match cs with
    | '+' :: r => (1, r)
    | '-' :: r => (-1, r)
    | r => (1, r)
  let sign := signAndRest.1
  let body := signAndRest.2
  let natOfDigits : List Char → ℚ := fun ds =>
    ((ds.foldl (fun a c => a * 10 + (c.toNat - '0'.toNat)) 0 : ℕ) : ℚ)
  match body.splitOn '.' with
  | [intPart] =>
      if intPart ≠ [] ∧ intPart.all Char.isDigit then
        some (sign * natOfDigits intPart)
      else none
  | [intPart, fracPart] =>
      if (intPart ≠ [] ∨ fracPart ≠ []) ∧ intPart.all Char.isDigit ∧
          fracPart.all Char.isDigit then
        some (sign * (natOfDigits intPart +
          natOfDigits fracPart / ((10 : ℚ) ^ fracPart.length)))
      else none
  | _ => none

/-- Python `float()` applied to an attribute value (`float(actual_value)`
in the range check; `float(submission.annual_revenue)` in the consistency
predicates is the identity on the rational value). -/
def pyFloat : Value → Option ℚ
  | .vStr s => pyParseFloat s
  | .vInt n => some (n : ℚ)
  | .vNum q => some q

/-- The ACORD submission record (`class ACORDSubmission(BaseModel)` of
`src/models/submission.py`). The two datetime fields are carried as opaque
`Value`s: they are always present (non-`None`) on a constructed record. -/
structure ACORDSubmission where
  submission_id : String
  acord_submission_number : Option String := none
  business_name : String
  naics_code : String
  annual_revenue : ℚ
  employee_count : ℤ
  years_in_business : ℤ
  business_address : String
  requested_coverage_types : String
  requested_limits : String
  submission_date : Value := .vStr "2024-01-01T00:00:00"
  created_at : Value := .vStr "2024-01-01T00:00:00"
deriving DecidableEq, Repr

/-- `getattr(submission, field_name, None)`: dynamic attribute lookup by
the field name string taken from the contract; an attribute the record
type does not expose yields `none` (Python `None`, the `getattr`
default). -/
def getField (sub : ACORDSubmission) : String → Option Value
  | "submission_id" => some (.vStr sub.submission_id)
  | "acord_submission_number" => sub.acord_submission_number.map .vStr
  | "business_name" => some (.vStr sub.business_name)
  | "naics_code" => some (.vStr sub.naics_code)
  | "annual_revenue" => some (.vNum sub.annual_revenue)
  | "employee_count" => some (.vInt sub.employee_count)
  | "years_in_business" => some (.vInt sub.years_in_business)
  | "business_address" => some (.vStr sub.business_address)
  | "requested_coverage_types" => some (.vStr sub.requested_coverage_types)
  | "requested_limits" => some (.vStr sub.requested_limits)
  | "submission_date" => some sub.submission_date
  | "created_at" => some sub.created_at
  | _ => none

/-- A compiled regex from a contract `pattern` entry: its source text (used
in emitted messages) and its matching function (`re.match(pattern, s)`
viewed as a predicate). -/
structure RegexPat where
  src : String
  test : String → Bool

/-- One field-rule definition of the contract's `required_fields` section:
the YAML mapping `{field, nullable?, description?, pattern?, min_length?,
max_length?, range?}`; absent keys are `none`, matching the `in` /
`dict.get` tests of the generated code. -/
structure FieldRule where
  field : String
  description : Option String := none
  nullable : Option Bool := none
  pattern : Option RegexPat := none
  min_length : Option ℤ := none
  max_length : Option ℤ := none
  range : Option (ℚ × ℚ) := none

/-- One entry of the contract's `consistency_checks` list. -/
structure ConsistencyCheck where
  rule_id : String
  name : String
  severity : String
  error_message : String := ""

/-- One entry of the contract's `enrichment_sources` catalog. -/
structure EnrichmentSource where
  source : String
  api_endpoint : String
  fields_provided : List String
  cost : ℚ
  confidence_threshold : ℚ
deriving DecidableEq, Repr

/-- One emitted enrichment suggestion (dict appended by
`_get_enrichment_suggestions`). -/
structure Suggestion where
  source : String
  api_endpoint : String
  fields_provided : List String
  cost : ℚ
  confidence_threshold : ℚ
deriving DecidableEq, Repr

/-- The loaded quality-rules contract (`self.quality_rules`), with the
`required_fields` mapping split into its two category lists and the
`.get(..., default)` section lookups already applied. -/
structure QualityRules where
  basic_info : List FieldRule := []
  coverage_info : List FieldRule := []
  consistency_checks : List ConsistencyCheck := []
  enrichment_sources : List EnrichmentSource := []

/-- Round half to even to an integer (the rounding of Python's builtin
`round`). `Rat.floor` is the floor `⌊q⌋` (`Rat.floor_def`). -/
def roundHalfEven (q : ℚ) : ℤ :=
  if q - q.floor < 1/2 then q.floor
  else if q - q.floor > 1/2 then q.floor + 1
  else if q.floor % 2 = 0 then q.floor else q.floor + 1

/-- Python `round(x, 2)` on the exact rational value. -/
def round2 (q : ℚ) : ℚ := ((roundHalfEven (q * 100) : ℚ)) / 100

/-- The body of the `basic_info` loop of `validate_required_fields` for one
field rule, in source order: missing-value check (with `continue`), then
the `pattern`, length and `range` sub-checks, each appending its own
outcome. An unparseable value in the `range` branch is the unguarded
`float(actual_value)` call: it raises (`.error`), aborting the whole
evaluation. -/
def evalBasicRule (sub : ACORDSubmission) (rule : FieldRule) :
    Except String (List ValidationResult) :=
  match getField sub rule.field with
  | none =>
      if rule.nullable = some false then
        .ok [{ rule_id := "REQ-" ++ pyUpper rule.field,
               rule_name := "Required Field: " ++ rule.description.getD rule.field,
               passed := false,
               severity := .error,
               error_message := some (rule.field ++ " is required but missing"),
               field_name := some rule.field,
               expected_value := some "Not null",
               actual_value := some "null" }]
      else .ok []
  | some v =>
      let patPart : List ValidationResult :=
        match rule.pattern with
        | none => []
        | some p =>
            if p.test (pyStr v) then
              [{ rule_id := "REQ-" ++ pyUpper rule.field ++ "-PATTERN",
                 rule_name := "Pattern Validation: " ++ rule.field,
                 passed := true,
                 severity := .info,
                 error_message := none,
                 field_name := some rule.field }]
            else
              [{ rule_id := "REQ-" ++ pyUpper rule.field ++ "-PATTERN",
                 rule_name := "Pattern Validation: " ++ rule.field,
                 passed := false,
                 severity := .error,
                 error_message := some (rule.field ++
                   " does not match required pattern " ++ p.src),
                 field_name := some rule.field,
                 expected_value := some ("Pattern: " ++ p.src),
                 actual_value := some (pyStr v) }]
      let lenPart : List ValidationResult :=
        if rule.min_length.isSome || rule.max_length.isSome then
          let actualLen : ℤ := ((pyStr v).length : ℤ)
          let minLen : ℤ := rule.min_length.getD 0
          let maxShown : String :=
            match rule.max_length with
            | some m => toString m
            | none => "inf"
          let failed : Bool := decide (actualLen < minLen) ||
            (match rule.max_length with
             | some m => decide (actualLen > m)
             | none => false)
          if failed then
            [{ rule_id := "REQ-" ++ pyUpper rule.field ++ "-LENGTH",
               rule_name := "Length Validation: " ++ rule.field,
               passed := false,
               severity := .error,
               error_message := some (rule.field ++ " length " ++
                 toString actualLen ++ " not in range [" ++ toString minLen ++
                 ", " ++ maxShown ++ "]"),
               field_name := some rule.field,
               expected_value := some ("Length in [" ++ toString minLen ++
                 ", " ++ maxShown ++ "]"),
               actual_value := some ("Length: " ++ toString actualLen) }]
          else
            [{ rule_id := "REQ-" ++ pyUpper rule.field ++ "-LENGTH",
               rule_name := "Length Validation: " ++ rule.field,
               passed := true,
               severity := .info,
               error_message := none,
               field_name := some rule.field }]
        else []
      match rule.range with
      | none => .ok (patPart ++ lenPart)
      | some (lo, hi) =>
          match pyFloat v with
          | none => .error ("could not convert string to float: " ++ pyStr v)
          | some x =>
              let rangePart : List ValidationResult :=
                if x < lo ∨ x > hi then
                  [{ rule_id := "REQ-" ++ pyUpper rule.field ++ "-RANGE",
                     rule_name := "Range Validation: " ++ rule.field,
                     passed := false,
                     severity := .error,
                     error_message := some (rule.field ++ " value " ++
                       toString x ++ " not in range [" ++ toString lo ++ ", " ++
                       toString hi ++ "]"),
                     field_name := some rule.field,
                     expected_value := some ("[" ++ toString lo ++ ", " ++
                       toString hi ++ "]"),
                     actual_value := some (toString x) }]
                else
                  [{ rule_id := "REQ-" ++ pyUpper rule.field ++ "-RANGE",
                     rule_name := "Range Validation: " ++ rule.field,
                     passed := true,
                     severity := .info,
                     error_message := none,
                     field_name := some rule.field }]
              .ok (patPart ++ lenPart ++ rangePart)

/-- The `basic_info` loop: outcomes of all rules in order; the first raise
aborts the whole call (the exception propagates out of the Python
function). -/
def evalBasicRules (sub : ACORDSubmission) :
    List FieldRule → Except String (List ValidationResult)
  | [] => .ok []
  | r :: rs => do
      let a ← evalBasicRule sub r
      let b ← evalBasicRules sub rs
      .ok (a ++ b)

/-- The body of the `coverage_info` loop for one field rule: a failing
outcome when the field is declared non-nullable and absent, otherwise a
single passing `REQ-<FIELD>` outcome of `info` severity (the pattern,
length and range keys are ignored by this loop in the source). -/
def evalCoverageRule (sub : ACORDSubmission) (rule : FieldRule) :
    ValidationResult :=
  if rule.nullable = some false ∧ getField sub rule.field = none then
    { rule_id := "REQ-" ++ pyUpper rule.field,
      rule_name := "Required Field: " ++ rule.description.getD rule.field,
      passed := false,
      severity := .error,
      error_message := some (rule.field ++ " is required but missing"),
      field_name := some rule.field,
      expected_value := some "Not null",
      actual_value := some "null" }
  else
    { rule_id := "REQ-" ++ pyUpper rule.field,
      rule_name := "Required Field: " ++ rule.description.getD rule.field,
      passed := true,
      severity := .info,
      error_message := none,
      field_name := some rule.field }

/-- `validate_required_fields`: the `basic_info` loop followed by the
`coverage_info` loop. -/
def validate_required_fields (q : QualityRules) (sub : ACORDSubmission) :
    Except String (List ValidationResult) := do
  let b ← evalBasicRules sub q.basic_info
  .ok (b ++ q.coverage_info.map (evalCoverageRule sub))

/-- `_check_revenue_employee_consistency`: the `CONS-001` predicate. -/
def check_revenue_employee_consistency (sub : ACORDSubmission) : Bool :=
  if sub.employee_count < 5 then
    decide (sub.annual_revenue < 1000000)
  else if 5 ≤ sub.employee_count ∧ sub.employee_count ≤ 50 then
    decide (500000 ≤ sub.annual_revenue ∧ sub.annual_revenue ≤ 50000000)
  else if sub.employee_count > 100 then
    decide (sub.annual_revenue > 5000000)
  else
    true

/-- `_check_years_revenue_consistency`: the `CONS-002` predicate. -/
def check_years_revenue_consistency (sub : ACORDSubmission) : Bool :=
  if sub.years_in_business < 2 then
    decide (sub.annual_revenue < 5000000)
  else
    true

/-- `re.match(r'^\d{6}$', s) is not None` with Python `re` semantics:
`$` matches at the end of the string or just before a single newline at
the end of the string (digits restricted to ASCII, see the header). -/
def naicsMatch (s : String) : Bool :=
  let cs := s.data
  (cs.length == 6 && cs.all Char.isDigit) ||
  (cs.length == 7 && (cs.take 6).all Char.isDigit && cs.getLast? == some '\n')

/-- `_check_naics_validity`: the `CONS-003` predicate. -/
def check_naics_validity (sub : ACORDSubmission) : Bool :=
  naicsMatch sub.naics_code

/-- The severity mapping of `validate_consistency`:
`Severity.WARNING if severity_str == 'warning' else Severity.ERROR`. -/
def severityOf (s : String) : Severity :=
  if s = "warning" then .warning else .error

/-- The body of the `validate_consistency` loop for one contract entry:
the `if/elif` dispatch on `rule_id`. A rule id that is none of `CONS-001`,
`CONS-002`, `CONS-003` falls through every branch and appends nothing (the
chain has no `else`, and the module performs no logging). -/
def consOutcomes (sub : ACORDSubmission) (check : ConsistencyCheck) :
    List ValidationResult :=
  if check.rule_id = "CONS-001" then
    let passed := check_revenue_employee_consistency sub
    [{ rule_id := check.rule_id,
       rule_name := check.name,
       passed := passed,
       severity := severityOf check.severity,
       error_message := if passed then none else
         some (pyReplace (pyReplace check.error_message "${annual_revenue}"
             (toString sub.annual_revenue)) "${employee_count}"
           (toString sub.employee_count)),
       field_name := some "annual_revenue, employee_count",
       expected_value := some "Revenue proportional to employees",
       actual_value := some ("Revenue: " ++ toString sub.annual_revenue ++
         ", Employees: " ++ toString sub.employee_count) }]
  else if check.rule_id = "CONS-002" then
    let passed := check_years_revenue_consistency sub
    [{ rule_id := check.rule_id,
       rule_name := check.name,
       passed := passed,
       severity := severityOf check.severity,
       error_message := if passed then none else
         some (pyReplace (pyReplace check.error_message "${years_in_business}"
             (toString sub.years_in_business)) "${annual_revenue}"
           (toString sub.annual_revenue)),
       field_name := some "years_in_business, annual_revenue",
       expected_value := some "New businesses (<2 years) should have revenue <$5M",
       actual_value := some ("Years: " ++ toString sub.years_in_business ++
         ", Revenue: " ++ toString sub.annual_revenue) }]
  else if check.rule_id = "CONS-003" then
    let passed := check_naics_validity sub
    [{ rule_id := check.rule_id,
       rule_name := check.name,
       passed := passed,
       severity := severityOf check.severity,
       error_message := if passed then none else
         some (pyReplace check.error_message "${naics_code}" sub.naics_code),
       field_name := some "naics_code",
       expected_value := some "Valid 6-digit NAICS code",
       actual_value := some sub.naics_code }]
  else []

/-- The `validate_consistency` loop over the contract entries, in contract
order. -/
def consList (sub : ACORDSubmission) :
    List ConsistencyCheck → List ValidationResult
  | [] => []
  | c :: cs => consOutcomes sub c ++ consList sub cs

/-- `validate_consistency`. -/
def validate_consistency (q : QualityRules) (sub : ACORDSubmission) :
    List ValidationResult :=
  consList sub q.consistency_checks

/-- The `failed_fields` set of `_get_enrichment_suggestions`:
`if not result.passed and result.field_name` — Python truthiness, so a
`None` or empty-string field name is excluded. List membership models set
membership. -/
def failedFields (results : List ValidationResult) : List String :=
  results.filterMap (fun r =>
    match r.field_name with
    | some f => if r.passed = false ∧ f ≠ "" then some f else none
    | none => none)

/-- The `enrichment_sources` loop of `_get_enrichment_suggestions`: a
suggestion per source whose provided fields meet a failed field, carrying
the relevant fields, cost and confidence threshold. -/
def suggList (failed : List String) :
    List EnrichmentSource → List Suggestion
  | [] => []
  | src :: rest =>
      let relevant := src.fields_provided.filter (fun f => failed.contains f)
      (if relevant.isEmpty then [] else
        [{ source := src.source,
           api_endpoint := src.api_endpoint,
           fields_provided := relevant,
           cost := src.cost,
           confidence_threshold := src.confidence_threshold }]) ++
      suggList failed rest

/-- `_get_enrichment_suggestions`. -/
def get_enrichment_suggestions (q : QualityRules)
    (results : List ValidationResult) : List Suggestion :=
  suggList (failedFields results) q.enrichment_sources

/-- `sum(1 for r in rs if r.passed)`. -/
def passedCount (rs : List ValidationResult) : ℕ :=
  (rs.filter (fun r => r.passed)).length

/-- `passed / total if total > 0 else 1.0` — the score of one outcome
list, before rounding. -/
def passRatio (rs : List ValidationResult) : ℚ :=
  if rs.length > 0 then (passedCount rs : ℚ) / (rs.length : ℚ) else 1

/-- The `summary` dict of the report. -/
structure QualitySummary where
  total_checks : ℕ
  passed_checks : ℕ
  failed_checks : ℕ
  errors : ℕ
  warnings : ℕ
deriving DecidableEq, Repr

/-- The report dict returned by `validate_submission`. -/
structure QualityReport where
  completeness_score : ℚ
  consistency_score : ℚ
  overall_quality_score : ℚ
  validation_results : List ValidationResult
  enrichment_suggestions : List Suggestion
  summary : QualitySummary
deriving DecidableEq, Repr

/-- `validate_submission`: run both evaluators, compute the three scores
(the overall score from the unrounded completeness and consistency
ratios, weights 0.6 and 0.4), round each score once at the boundary, and
assemble the report. -/
def validate_submission (q : QualityRules) (sub : ACORDSubmission) :
    Except String QualityReport := do
  let required ← validate_required_fields q sub
  let consistency := validate_consistency q sub
  let allResults := required ++ consistency
  let completeness := passRatio required
  let consistencyScore := passRatio consistency
  let overall := completeness * (6/10) + consistencyScore * (4/10)
  .ok { completeness_score := round2 completeness,
        consistency_score := round2 consistencyScore,
        overall_quality_score := round2 overall,
        validation_results := allResults,
        enrichment_suggestions := get_enrichment_suggestions q allResults,
        summary := {
          total_checks := allResults.length,
          passed_checks := passedCount allResults,
          failed_checks := allResults.length - passedCount allResults,
          errors := (allResults.filter (fun r =>
            r.passed = false ∧ r.severity = Severity.error)).length,
          warnings := (allResults.filter (fun r =>
            r.passed = false ∧ r.severity = Severity.warning)).length } }

/-- The constraints the pydantic record model (`src/models/submission.py`)
enforces at construction: `Field` bounds plus the two field validators
(the NAICS validator uses the same `^\d{6}$` regex as `CONS-003`, and the
business-name validator stores the stripped, non-empty name). A record
satisfying this predicate is constructible upstream. -/
def pydanticAccepts (sub : ACORDSubmission) : Prop :=
  sub.submission_id.length ≤ 50 ∧
  (sub.acord_submission_number.getD "").length ≤ 50 ∧
  3 ≤ sub.business_name.length ∧ sub.business_name.length ≤ 200 ∧
  pyStrip sub.business_name = sub.business_name ∧ sub.business_name ≠ "" ∧
  sub.naics_code.length ≤ 10 ∧ naicsMatch sub.naics_code = true ∧
  10000 ≤ sub.annual_revenue ∧ sub.annual_revenue ≤ 1000000000 ∧
  1 ≤ sub.employee_count ∧ sub.employee_count ≤ 100000 ∧
  0 ≤ sub.years_in_business ∧ sub.years_in_business ≤ 200 ∧
  sub.business_address.length ≤ 500 ∧
  sub.requested_coverage_types.length ≤ 200 ∧
  sub.requested_limits.length ≤ 200

instance (sub : ACORDSubmission) : Decidable (pydanticAccepts sub) := by
  unfold pydanticAccepts
  infer_instance

/-- A concrete well-formed submission used by several concrete inputs
below (the scenario of the spec: revenue 50,000,000, employees 3,
years 5). -/
def subA : ACORDSubmission :=
  { submission_id := "SUB-001"
    business_name := "Test Corp"
    naics_code := "541511"
    annual_revenue := 50000000
    employee_count := 3
    years_in_business := 5
    business_address := "123 Main St, City, ST 12345"
    requested_coverage_types := "General Liability"
    requested_limits := "1000000" }

/-- C6: the `CONS-001` revenue-vs-employee predicate passes exactly on the
contract's three conditional bands, and every employee count in `(50,100]`
passes unconditionally (the gap is preserved, not tightened). -/
theorem C6_cons001_bands (sub : ACORDSubmission) :
    (check_revenue_employee_consistency sub = true ↔
      ((sub.employee_count < 5 → sub.annual_revenue < 1000000) ∧
       (5 ≤ sub.employee_count → sub.employee_count ≤ 50 →
         500000 ≤ sub.annual_revenue ∧ sub.annual_revenue ≤ 50000000) ∧
       (100 < sub.employee_count → 5000000 < sub.annual_revenue))) ∧
    (50 < sub.employee_count → sub.employee_count ≤ 100 →
      check_revenue_employee_consistency sub = true) := by
  unfold check_revenue_employee_consistency
  split_ifs with h1 h2 h3
  · refine ⟨?_, fun h50 _ => absurd h1 (by omega)⟩
    simp only [decide_eq_true_eq]
    exact ⟨fun h => ⟨fun _ => h, fun h5 _ => absurd h1 (by omega),
        fun h100 => absurd h1 (by omega)⟩,
      fun h => h.1 h1⟩
  · refine ⟨?_, fun h50 _ => absurd h2.2 (by omega)⟩
    simp only [decide_eq_true_eq]
    exact ⟨fun h => ⟨fun hlt => absurd hlt h1, fun _ _ => h,
        fun h100 => absurd h2.2 (by omega)⟩,
      fun h => h.2.1 h2.1 h2.2⟩
  · refine ⟨?_, fun h50 h100 => absurd h3 (by omega)⟩
    simp only [decide_eq_true_eq, gt_iff_lt]
    exact ⟨fun h => ⟨fun hlt => absurd hlt h1,
        fun h5 h50 => absurd h3 (by omega), fun _ => h⟩,
      fun h => h.2.2 h3⟩
  · refine ⟨?_, fun _ _ => rfl⟩
    exact ⟨fun _ => ⟨fun hlt => absurd hlt h1,
        fun h5 h50 => absurd (And.intro h5 h50) h2,
        fun h100 => absurd h100 h3⟩,
      fun _ => rfl⟩

/-- The concrete record refuting the six-digit reading of `CONS-003`: its
industry code is six digits followed by a trailing newline (7 characters),
which the pydantic record model also accepts, since its validator uses the
same regex. -/
def subNewline : ACORDSubmission :=
  { subA with naics_code := String.mk ['5', '4', '1', '5', '1', '1', '\n'] }

/-- C7 counterexample: `CONS-003` passes on a constructible record whose
industry code is not exactly six digits (it has seven characters, the last
a newline), because Python's `$` also matches just before a trailing
newline. -/
theorem C7_counterexample :
    check_naics_validity subNewline = true ∧
    subNewline.naics_code.data.length = 7 ∧
    ¬(subNewline.naics_code.data.length = 6 ∧
      subNewline.naics_code.data.all Char.isDigit = true) ∧
    pydanticAccepts subNewline := by
  refine ⟨rfl, rfl, by decide, by decide⟩

/-- C7 amended: `CONS-002` fails exactly when `years_in_business < 2` and
`annual_revenue ≥ 5,000,000` (so it passes whenever
`years_in_business ≥ 2`); `CONS-003` passes exactly when the industry code
is six decimal digits, or six decimal digits followed by one trailing
newline (Python `$` regex semantics). -/
theorem C7_cons002_cons003 (sub : ACORDSubmission) :
    (check_years_revenue_consistency sub = false ↔
      (sub.years_in_business < 2 ∧ 5000000 ≤ sub.annual_revenue)) ∧
    (2 ≤ sub.years_in_business → check_years_revenue_consistency sub = true) ∧
    (check_naics_validity sub = true ↔
      ((sub.naics_code.data.length = 6 ∧
          ∀ c ∈ sub.naics_code.data, c.isDigit = true) ∨
        (∃ ds, sub.naics_code.data = ds ++ ['\n'] ∧ ds.length = 6 ∧
          ∀ c ∈ ds, c.isDigit = true))) := by
  refine ⟨?_, ?_, ?_⟩
  · unfold check_years_revenue_consistency
    split_ifs with h1
    · simp only [decide_eq_false_iff_not, not_lt]
      exact ⟨fun h => ⟨h1, h⟩, fun h => h.2⟩
    · simp only [Bool.true_eq_false, false_iff, not_and, not_le]
      intro h2
      exact absurd h2 h1
  · intro h2
    unfold check_years_revenue_consistency
    split_ifs with h1
    · exact absurd h1 (by omega)
    · rfl
  · unfold check_naics_validity naicsMatch
    simp only [Bool.or_eq_true, Bool.and_eq_true, beq_iff_eq,
      List.all_eq_true]
    constructor
    · rintro (⟨h6, hd⟩ | ⟨⟨h7, hd⟩, hl⟩)
      · exact Or.inl ⟨h6, hd⟩
      · refine Or.inr ⟨sub.naics_code.data.take 6, ?_, ?_, ?_⟩
        · have hne : sub.naics_code.data ≠ [] := by
            intro h; rw [h] at h7; simp at h7
          have hlast := List.getLast?_eq_getLast sub.naics_code.data hne
          rw [hlast] at hl
          have hg : sub.naics_code.data.getLast hne = '\n' :=
            Option.some_injective _ hl
          have hdl : sub.naics_code.data.dropLast =
              sub.naics_code.data.take 6 := by
            rw [List.dropLast_eq_take, h7]
          calc sub.naics_code.data
              = sub.naics_code.data.dropLast ++
                  [sub.naics_code.data.getLast hne] :=
                (List.dropLast_append_getLast hne).symm
            _ = sub.naics_code.data.take 6 ++ ['\n'] := by rw [hdl, hg]
        · rw [List.length_take, h7]
          rfl
        · exact hd
    · rintro (⟨h6, hd⟩ | ⟨ds, hds, h6, hd⟩)
      · exact Or.inl ⟨h6, hd⟩
      · refine Or.inr ⟨⟨?_, ?_⟩, ?_⟩
        · rw [hds]
          simp [h6]
        · intro c hc
          rw [hds, ← h6, List.take_left] at hc
          exact hd c hc
        · rw [hds, List.getLast?_concat]

/-- Per-entry rule-id inventory of the dispatch: an implemented rule id
emits exactly its own id, any other id emits nothing. -/
theorem consOutcomes_ruleIds (sub : ACORDSubmission) (c : ConsistencyCheck) :
    (consOutcomes sub c).map (fun r => r.rule_id) =
      if c.rule_id = "CONS-001" ∨ c.rule_id = "CONS-002" ∨
          c.rule_id = "CONS-003" then [c.rule_id] else [] := by
  unfold consOutcomes
  split_ifs with h1 h2 h3 h4 <;> simp_all

/-- C2 amended: `validate_consistency` returns exactly one outcome per
implemented contract-declared rule id (`CONS-001`, `CONS-002`,
`CONS-003`), in contract order, and a contract entry with any other rule
id yields no outcome at all — it is skipped silently (never counted as
passed, never raised; no warning is logged, the module has no logging). -/
theorem C2_outcomes_per_declared_rule (q : QualityRules)
    (sub : ACORDSubmission) :
    (validate_consistency q sub).map (fun r => r.rule_id) =
      (q.consistency_checks.map (fun c => c.rule_id)).filter
        (fun i => i == "CONS-001" || i == "CONS-002" || i == "CONS-003") := by
  unfold validate_consistency
  induction q.consistency_checks with
  | nil => rfl
  | cons c cs ih =>
      simp only [consList, List.map_append, List.map_cons, List.filter_cons,
        consOutcomes_ruleIds, ih]
      by_cases h : c.rule_id = "CONS-001" ∨ c.rule_id = "CONS-002" ∨
        c.rule_id = "CONS-003"
      · rcases h with h | h | h <;> simp [h]
      · push_neg at h
        simp [h.1, h.2.1, h.2.2]

/-- The contract of the C2 counterexample: two declared consistency rule
ids, one of them unknown to the dispatch. -/
def c2rules : QualityRules :=
  { consistency_checks :=
      [ { rule_id := "CONS-001", name := "Revenue vs Employee",
          severity := "warning", error_message := "mismatch" },
        { rule_id := "CONS-999", name := "Unknown Rule",
          severity := "warning", error_message := "unknown" } ] }

/-- C2 counterexample: with two contract-declared consistency rule ids,
`validate_consistency` returns one outcome, not one per declared id — the
unknown id `CONS-999` has no outcome at all. -/
theorem C2_counterexample :
    c2rules.consistency_checks.length = 2 ∧
    (validate_consistency c2rules subA).map (fun r => r.rule_id) =
      ["CONS-001"] ∧
    (¬ ∃ r ∈ validate_consistency c2rules subA, r.rule_id = "CONS-999") := by
  refine ⟨rfl, rfl, by decide⟩

/-- The contract entry of the C5 counterexample: a consistency rule whose
declared severity is `info`. -/
def c5check : ConsistencyCheck :=
  { rule_id := "CONS-001", name := "Revenue vs Employee",
    severity := "info", error_message := "mismatch" }

/-- The contract of the C5 counterexample. -/
def c5rules : QualityRules := { consistency_checks := [c5check] }

/-- C5 counterexample: a contract severity of `info` (neither `warning`
nor `error`) is mapped to `error`, not to `warning` as claimed. -/
theorem C5_counterexample :
    c5check.severity = "info" ∧
    (validate_consistency c5rules subA).map (fun r => r.severity) =
      [Severity.error] ∧
    Severity.error ≠ Severity.warning := by
  refine ⟨rfl, rfl, by decide⟩

/-- C5 amended: the severity of each emitted consistency outcome is the
contract's declared severity for that rule id mapped to `warning` exactly
when the contract says `warning`, and to `error` otherwise — in particular
a contract severity of `info` maps to `error`. -/
theorem C5_severity_mapping (check : ConsistencyCheck)
    (sub : ACORDSubmission) (r : ValidationResult)
    (hr : r ∈ consOutcomes sub check) :
    (r.severity = Severity.warning ↔ check.severity = "warning") ∧
    (check.severity ≠ "warning" → r.severity = Severity.error) := by
  unfold consOutcomes at hr
  split_ifs at hr <;>
    first
      | exact absurd hr (List.not_mem_nil r)
      | · simp only [List.mem_singleton] at hr
          subst hr
          unfold severityOf
          split_ifs with hw <;> simp [hw]

/-- The outcome emitted for `c5check` on `subA` (revenue 50,000,000 with
3 employees fails the `CONS-001` predicate). -/
def c5out : ValidationResult :=
  { rule_id := "CONS-001", rule_name := "Revenue vs Employee",
    passed := false, severity := .error,
    error_message := some "mismatch",
    field_name := some "annual_revenue, employee_count",
    expected_value := some "Revenue proportional to employees",
    actual_value := some "Revenue: 50000000, Employees: 3" }

/-- C5 witness: the amended severity mapping evaluated on the concrete
`info`-severity contract entry. -/
theorem C5_severity_mapping_witness :
    (c5out.severity = Severity.warning ↔ c5check.severity = "warning") ∧
    (c5check.severity ≠ "warning" → c5out.severity = Severity.error) :=
  C5_severity_mapping c5check subA c5out (by decide)

/-- Every field-name string collected from one consistency dispatch entry
is one of the three literal strings the dispatch hardcodes. -/
theorem mem_failedFields_consOutcomes (sub : ACORDSubmission)
    (c : ConsistencyCheck) (f : String)
    (h : f ∈ failedFields (consOutcomes sub c)) :
    f = "annual_revenue, employee_count" ∨
    f = "years_in_business, annual_revenue" ∨ f = "naics_code" := by
  unfold consOutcomes failedFields at h
  split_ifs at h <;> simp_all

/-- Every field-name string collected from a consistency outcome list is
one of the three literal strings of the dispatch. -/
theorem mem_failedFields_consList (sub : ACORDSubmission)
    (checks : List ConsistencyCheck) (f : String)
    (h : f ∈ failedFields (consList sub checks)) :
    f = "annual_revenue, employee_count" ∨
    f = "years_in_business, annual_revenue" ∨ f = "naics_code" := by
  induction checks with
  | nil => simp [consList, failedFields] at h
  | cons c cs ih =>
      rw [consList] at h
      unfold failedFields at h
      rw [List.filterMap_append] at h
      rcases List.mem_append.mp h with h' | h'
      · exact mem_failedFields_consOutcomes sub c f h'
      · exact ih h'

/-- No emitted suggestion carries an empty provided-field list. -/
theorem suggList_fields_ne_nil (failed : List String)
    (srcs : List EnrichmentSource) (s : Suggestion)
    (hs : s ∈ suggList failed srcs) : s.fields_provided ≠ [] := by
  induction srcs with
  | nil => cases hs
  | cons src rest ih =>
      simp only [suggList] at hs
      rcases List.mem_append.mp hs with h | h
      · split_ifs at h with hemp
        · cases h
        · simp only [List.mem_singleton] at h
          subst h
          simpa [List.isEmpty_iff] using hemp
      · exact ih h

/-- Every field a suggestion offers was contained in the failed-field
set the suggestions were computed from. -/
theorem mem_suggList_fields (failed : List String)
    (srcs : List EnrichmentSource) (s : Suggestion) (hs : s ∈ suggList failed srcs) :
    ∀ f ∈ s.fields_provided, failed.contains f = true := by
  induction srcs with
  | nil => cases hs
  | cons src rest ih =>
      simp only [suggList] at hs
      rcases List.mem_append.mp hs with h | h
      · split_ifs at h with hemp
        · cases h
        · simp only [List.mem_singleton] at h
          subst h
          intro f hf
          exact (List.mem_filter.mp hf).2
      · exact ih h

/-- C10: every `CONS-001` outcome carries the single comma-joined field
name `annual_revenue, employee_count` and every `CONS-002` outcome
carries `years_in_business, annual_revenue`; hence no suggestion computed
from consistency outcomes alone can offer the individual field
`annual_revenue`, whatever the enrichment catalog. -/
theorem C10_joined_field_names (q : QualityRules) (sub : ACORDSubmission) :
    (∀ r ∈ validate_consistency q sub,
      (r.rule_id = "CONS-001" →
        r.field_name = some "annual_revenue, employee_count") ∧
      (r.rule_id = "CONS-002" →
        r.field_name = some "years_in_business, annual_revenue")) ∧
    (∀ (qcat : QualityRules) (s : Suggestion),
      s ∈ get_enrichment_suggestions qcat (validate_consistency q sub) →
      "annual_revenue" ∉ s.fields_provided) := by
  constructor
  · unfold validate_consistency
    induction q.consistency_checks with
    | nil => intro r hr; cases hr
    | cons c cs ih =>
        intro r hr
        rw [consList] at hr
        rcases List.mem_append.mp hr with h | h
        · unfold consOutcomes at h
          split_ifs at h with h1 h2 h3 <;> simp_all
        · exact ih r h
  · intro qcat s hs hmem
    have hc := mem_suggList_fields _ _ s hs "annual_revenue" hmem
    have hf : "annual_revenue" ∈
        failedFields (validate_consistency q sub) := by
      simpa [List.contains] using hc
    rcases mem_failedFields_consList sub q.consistency_checks _ hf with
      h | h | h <;> simp at h

/-- C9: the enrichment advisor emits exactly one suggestion per catalog
entry whose provided fields meet a failing field, restricted to the
intersection and carrying the source's cost and confidence threshold
unchanged; an entry with an empty intersection is omitted, and no emitted
suggestion has an empty field list. -/
theorem C9_enrichment_suggestions (q : QualityRules)
    (results : List ValidationResult) :
    get_enrichment_suggestions q results =
      q.enrichment_sources.filterMap (fun src =>
        if (src.fields_provided.filter
            (fun f => (failedFields results).contains f)).isEmpty then none
        else some
          { source := src.source, api_endpoint := src.api_endpoint,
            fields_provided := src.fields_provided.filter
              (fun f => (failedFields results).contains f),
            cost := src.cost,
            confidence_threshold := src.confidence_threshold }) ∧
    (∀ s ∈ get_enrichment_suggestions q results, s.fields_provided ≠ []) := by
  constructor
  · unfold get_enrichment_suggestions
    induction q.enrichment_sources with
    | nil => rfl
    | cons src rest ih =>
        simp only [suggList, List.filterMap_cons, ih]
        split_ifs with hemp <;> simp [hemp]
  · intro s hs
    exact suggList_fields_ne_nil _ _ s hs

/-- The report `validate_submission` assembles once the required-field
evaluation has succeeded, spelled out field by field. -/
theorem validate_submission_ok (q : QualityRules) (sub : ACORDSubmission)
    (req : List ValidationResult)
    (hreq : validate_required_fields q sub = .ok req) :
    validate_submission q sub = .ok
      { completeness_score := round2 (passRatio req),
        consistency_score := round2 (passRatio (validate_consistency q sub)),
        overall_quality_score := round2 (passRatio req * (6/10) +
          passRatio (validate_consistency q sub) * (4/10)),
        validation_results := req ++ validate_consistency q sub,
        enrichment_suggestions := get_enrichment_suggestions q
          (req ++ validate_consistency q sub),
        summary := {
          total_checks := (req ++ validate_consistency q sub).length,
          passed_checks := passedCount (req ++ validate_consistency q sub),
          failed_checks := (req ++ validate_consistency q sub).length -
            passedCount (req ++ validate_consistency q sub),
          errors := ((req ++ validate_consistency q sub).filter (fun r =>
            r.passed = false ∧ r.severity = Severity.error)).length,
          warnings := ((req ++ validate_consistency q sub).filter (fun r =>
            r.passed = false ∧ r.severity = Severity.warning)).length } } := by
  unfold validate_submission
  rw [hreq]
  rfl

/-- The pass count never exceeds the outcome count. -/
theorem passedCount_le_length (rs : List ValidationResult) :
    passedCount rs ≤ rs.length :=
  List.length_filter_le _ _

/-- The raw pass ratio is non-negative. -/
theorem passRatio_nonneg (rs : List ValidationResult) : 0 ≤ passRatio rs := by
  unfold passRatio
  split_ifs with h
  · positivity
  · norm_num

/-- The raw pass ratio is at most one. -/
theorem passRatio_le_one (rs : List ValidationResult) : passRatio rs ≤ 1 := by
  unfold passRatio
  split_ifs with h
  · rw [div_le_one (by exact_mod_cast h)]
    exact_mod_cast passedCount_le_length rs
  · norm_num

/-- `Rat.floor` agrees with the floor of the order structure. -/
theorem ratFloor_eq_floor (q : ℚ) : q.floor = ⌊q⌋ := by
  rw [Rat.floor_def', Rat.floor_def]

/-- Evaluation rule for `round2` when the scaled fraction is below one
half. -/
theorem round2_of_lt (q : ℚ) (f : ℤ) (hf : ⌊q * 100⌋ = f)
    (h : q * 100 - (f : ℚ) < 1/2) : round2 q = (f : ℚ)/100 := by
  unfold round2 roundHalfEven
  rw [ratFloor_eq_floor, hf, if_pos h]

/-- Evaluation rule for `round2` when the scaled fraction is above one
half. -/
theorem round2_of_gt (q : ℚ) (f : ℤ) (hf : ⌊q * 100⌋ = f)
    (h : q * 100 - (f : ℚ) > 1/2) : round2 q = ((f : ℚ) + 1)/100 := by
  unfold round2 roundHalfEven
  rw [ratFloor_eq_floor, hf, if_neg (by linarith), if_pos h]
  push_cast
  ring

/-- Round-half-even of a non-negative rational is non-negative. -/
theorem roundHalfEven_nonneg (x : ℚ) (hx : 0 ≤ x) : 0 ≤ roundHalfEven x := by
  unfold roundHalfEven
  rw [ratFloor_eq_floor]
  have h0 : (0 : ℤ) ≤ ⌊x⌋ := Int.floor_nonneg.mpr hx
  split_ifs <;> omega

/-- Round-half-even never exceeds an integer upper bound of its input. -/
theorem roundHalfEven_le (x : ℚ) (n : ℤ) (hx : x ≤ (n : ℚ)) :
    roundHalfEven x ≤ n := by
  unfold roundHalfEven
  rw [ratFloor_eq_floor]
  have h1 : ⌊x⌋ ≤ n := by
    have := Int.floor_mono hx
    rwa [Int.floor_intCast] at this
  have hplus : ¬ x - ⌊x⌋ < 1/2 → ⌊x⌋ + 1 ≤ n := by
    intro hlt
    have hge : (1 : ℚ)/2 ≤ x - ⌊x⌋ := le_of_not_lt hlt
    have hfl : (⌊x⌋ : ℚ) < x := by linarith
    have : ⌊x⌋ < n := by
      by_contra hh
      push_neg at hh
      have heq : ⌊x⌋ = n := le_antisymm h1 hh
      rw [heq] at hfl
      exact absurd hx (not_le.mpr hfl)
    omega
  split_ifs with hlt hgt hev
  · exact h1
  · exact hplus hlt
  · exact h1
  · exact hplus hlt

/-- Two-decimal rounding of a non-negative rational is non-negative. -/
theorem round2_nonneg (q : ℚ) (h : 0 ≤ q) : 0 ≤ round2 q := by
  unfold round2
  have h0 := roundHalfEven_nonneg (q * 100) (by positivity)
  have : (0 : ℚ) ≤ (roundHalfEven (q * 100) : ℚ) := by exact_mod_cast h0
  positivity

/-- Two-decimal rounding of a rational at most one is at most one. -/
theorem round2_le_one (q : ℚ) (h : q ≤ 1) : round2 q ≤ 1 := by
  unfold round2
  have h100 : q * 100 ≤ ((100 : ℤ) : ℚ) := by push_cast; linarith
  have hr := roundHalfEven_le (q * 100) 100 h100
  rw [div_le_one (by norm_num)]
  exact_mod_cast hr

/-- Two-decimal rounding fixes one. -/
theorem round2_one : round2 1 = 1 := by
  have h := round2_of_lt 1 100 (by norm_num) (by norm_num)
  rw [h]
  norm_num

/-- C1 amended: each of the three reported scores is rounded exactly once,
at the boundary: the reported completeness and consistency scores are the
unrounded pass ratios rounded to two decimals, and the reported overall
score is `round(raw_completeness*0.6 + raw_consistency*0.4, 2)` computed
from the unrounded ratios, not from the already-rounded reported
scores. -/
theorem C1_overall_from_unrounded (q : QualityRules) (sub : ACORDSubmission)
    (req : List ValidationResult) (report : QualityReport)
    (hreq : validate_required_fields q sub = .ok req)
    (hrep : validate_submission q sub = .ok report) :
    report.completeness_score = round2 (passRatio req) ∧
    report.consistency_score =
      round2 (passRatio (validate_consistency q sub)) ∧
    report.overall_quality_score = round2 (passRatio req * (6/10) +
      passRatio (validate_consistency q sub) * (4/10)) := by
  rw [validate_submission_ok q sub req hreq] at hrep
  injection hrep with h
  subst h
  exact ⟨rfl, rfl, rfl⟩

/-- The contract of the C1 counterexample: seven coverage field rules, of
which exactly one passes (six name attributes absent from the record), and
no consistency checks, giving an unrounded completeness ratio of 1/7. -/
def c1rules : QualityRules :=
  { coverage_info :=
      [ { field := "extra_a", nullable := some false },
        { field := "extra_b", nullable := some false },
        { field := "extra_c", nullable := some false },
        { field := "extra_d", nullable := some false },
        { field := "extra_e", nullable := some false },
        { field := "extra_f", nullable := some false },
        { field := "business_name", nullable := some false } ] }

/-- C1 counterexample: the report for `c1rules` carries completeness 0.14,
consistency 1.0 and overall 0.49, but the claim's formula over the
reported (already rounded) scores gives `round(0.14*0.6 + 1.0*0.4, 2) =
0.48 ≠ 0.49` — the code computes the overall score from the unrounded
ratios. -/
theorem C1_counterexample :
    (validate_submission c1rules subA).map (fun r =>
      (r.completeness_score, r.consistency_score, r.overall_quality_score)) =
      .ok (7/50, 1, 49/100) ∧
    round2 ((7/50) * (6/10) + 1 * (4/10)) = 12/25 ∧
    ((49 : ℚ)/100 ≠ 12/25) := by
  refine ⟨?_, ?_, by norm_num⟩
  · have hreq : validate_required_fields c1rules subA =
        .ok (c1rules.coverage_info.map (evalCoverageRule subA)) := rfl
    rw [validate_submission_ok c1rules subA _ hreq]
    have hcons : validate_consistency c1rules subA = [] := rfl
    rw [hcons]
    have hpc : passedCount (c1rules.coverage_info.map (evalCoverageRule subA)) =
        1 := by decide
    have hlen : (c1rules.coverage_info.map (evalCoverageRule subA)).length =
        7 := by decide
    have hratio : passRatio (c1rules.coverage_info.map (evalCoverageRule subA)) =
        1/7 := by
      unfold passRatio
      rw [hpc, hlen]
      norm_num
    have hpr0 : passRatio ([] : List ValidationResult) = 1 := by
      simp [passRatio]
    have hc : round2 ((1 : ℚ)/7) = 7/50 := by
      rw [round2_of_lt (1/7) 14 (by rw [Int.floor_eq_iff]; norm_num)
        (by norm_num)]
      norm_num
    have ho : round2 ((1 : ℚ)/7 * (6/10) + 1 * (4/10)) = 49/100 := by
      rw [round2_of_gt (1/7 * (6/10) + 1 * (4/10)) 48
        (by rw [Int.floor_eq_iff]; norm_num) (by norm_num)]
      norm_num
    simp only [Except.map, hratio, hpr0, hc, ho, round2_one]
  · have h48 : round2 ((7 : ℚ)/50 * (6/10) + 1 * (4/10)) = 12/25 := by
      rw [round2_of_lt (7/50 * (6/10) + 1 * (4/10)) 48
        (by rw [Int.floor_eq_iff]; norm_num) (by norm_num)]
      norm_num
    exact h48

/-- An empty contract used by witnesses: both evaluators return no
outcomes and every score defaults to 1.0. -/
def emptyRules : QualityRules := {}

/-- The report `validate_submission` returns for the empty contract. -/
def emptyReport : QualityReport :=
  { completeness_score := 1, consistency_score := 1,
    overall_quality_score := 1, validation_results := [],
    enrichment_suggestions := [],
    summary := { total_checks := 0, passed_checks := 0, failed_checks := 0,
                 errors := 0, warnings := 0 } }

/-- `validate_submission` on the empty contract yields `emptyReport`. -/
theorem emptyReport_eq :
    validate_submission emptyRules subA = .ok emptyReport := by
  rw [validate_submission_ok emptyRules subA [] rfl]
  have hcons : validate_consistency emptyRules subA = [] := rfl
  rw [hcons]
  have hpr : passRatio ([] : List ValidationResult) = 1 := by
    simp [passRatio]
  simp only [List.append_nil, hpr]
  have h1 : (1 : ℚ) * (6/10) + 1 * (4/10) = 1 := by norm_num
  rw [h1, round2_one]
  rfl

/-- C1 witness: the amended rounding-at-the-boundary statement evaluated
on the empty contract and the concrete record. -/
theorem C1_overall_from_unrounded_witness :
    emptyReport.completeness_score = round2 (passRatio []) ∧
    emptyReport.consistency_score =
      round2 (passRatio (validate_consistency emptyRules subA)) ∧
    emptyReport.overall_quality_score = round2 (passRatio [] * (6/10) +
      passRatio (validate_consistency emptyRules subA) * (4/10)) :=
  C1_overall_from_unrounded emptyRules subA [] emptyReport rfl emptyReport_eq

/-- C8: each reported score is the rounded pass ratio of its outcome list
(the count of passed outcomes over the count of all outcomes of that
list), an empty outcome list makes the corresponding score default to
exactly 1.0 with no division-by-zero error, and all three reported scores
lie in `[0, 1]`. -/
theorem C8_score_ratios_and_bounds (q : QualityRules) (sub : ACORDSubmission)
    (req : List ValidationResult) (report : QualityReport)
    (hreq : validate_required_fields q sub = .ok req)
    (hrep : validate_submission q sub = .ok report) :
    report.completeness_score = round2 (passRatio req) ∧
    report.consistency_score =
      round2 (passRatio (validate_consistency q sub)) ∧
    (req ≠ [] → passRatio req =
      (passedCount req : ℚ) / (req.length : ℚ)) ∧
    (req = [] → report.completeness_score = 1) ∧
    (validate_consistency q sub ≠ [] →
      passRatio (validate_consistency q sub) =
        (passedCount (validate_consistency q sub) : ℚ) /
          ((validate_consistency q sub).length : ℚ)) ∧
    (validate_consistency q sub = [] → report.consistency_score = 1) ∧
    (0 ≤ report.completeness_score ∧ report.completeness_score ≤ 1) ∧
    (0 ≤ report.consistency_score ∧ report.consistency_score ≤ 1) ∧
    (0 ≤ report.overall_quality_score ∧
      report.overall_quality_score ≤ 1) := by
  rw [validate_submission_ok q sub req hreq] at hrep
  injection hrep with h
  subst h
  refine ⟨rfl, rfl, ?_, ?_, ?_, ?_, ?_, ?_, ?_⟩
  · intro hne
    unfold passRatio
    rw [if_pos (by simpa [List.length_pos] using hne)]
  · intro he
    show round2 (passRatio req) = 1
    rw [he]
    have : passRatio ([] : List ValidationResult) = 1 := by simp [passRatio]
    rw [this, round2_one]
  · intro hne
    unfold passRatio
    rw [if_pos (by simpa [List.length_pos] using hne)]
  · intro he
    show round2 (passRatio (validate_consistency q sub)) = 1
    rw [he]
    have : passRatio ([] : List ValidationResult) = 1 := by simp [passRatio]
    rw [this, round2_one]
  · exact ⟨round2_nonneg _ (passRatio_nonneg req),
      round2_le_one _ (passRatio_le_one req)⟩
  · exact ⟨round2_nonneg _ (passRatio_nonneg _),
      round2_le_one _ (passRatio_le_one _)⟩
  · have hc0 := passRatio_nonneg req
    have hc1 := passRatio_le_one req
    have hs0 := passRatio_nonneg (validate_consistency q sub)
    have hs1 := passRatio_le_one (validate_consistency q sub)
    constructor
    · apply round2_nonneg
      have h1 : 0 ≤ passRatio req * (6/10) :=
        mul_nonneg hc0 (by norm_num)
      have h2 : 0 ≤ passRatio (validate_consistency q sub) * (4/10) :=
        mul_nonneg hs0 (by norm_num)
      linarith
    · apply round2_le_one
      have h1 : passRatio req * (6/10) ≤ 1 * (6/10) :=
        mul_le_mul_of_nonneg_right hc1 (by norm_num)
      have h2 : passRatio (validate_consistency q sub) * (4/10) ≤
          1 * (4/10) :=
        mul_le_mul_of_nonneg_right hs1 (by norm_num)
      linarith

/-- C8 witness: the score formulas and bounds evaluated on the empty
contract and the concrete record. -/
theorem C8_score_ratios_and_bounds_witness :
    emptyReport.completeness_score = round2 (passRatio []) ∧
    emptyReport.consistency_score =
      round2 (passRatio (validate_consistency emptyRules subA)) ∧
    (([] : List ValidationResult) ≠ [] → passRatio [] =
      (passedCount [] : ℚ) / (([] : List ValidationResult).length : ℚ)) ∧
    (([] : List ValidationResult) = [] →
      emptyReport.completeness_score = 1) ∧
    (validate_consistency emptyRules subA ≠ [] →
      passRatio (validate_consistency emptyRules subA) =
        (passedCount (validate_consistency emptyRules subA) : ℚ) /
          ((validate_consistency emptyRules subA).length : ℚ)) ∧
    (validate_consistency emptyRules subA = [] →
      emptyReport.consistency_score = 1) ∧
    (0 ≤ emptyReport.completeness_score ∧
      emptyReport.completeness_score ≤ 1) ∧
    (0 ≤ emptyReport.consistency_score ∧
      emptyReport.consistency_score ≤ 1) ∧
    (0 ≤ emptyReport.overall_quality_score ∧
      emptyReport.overall_quality_score ≤ 1) :=
  C8_score_ratios_and_bounds emptyRules subA [] emptyReport rfl
    emptyReport_eq

/-- The contract of the C3 counterexample: one `basic_info` field rule,
non-nullable, with no pattern, length or range constraint. -/
def c3rules : QualityRules :=
  { basic_info := [ { field := "business_name", nullable := some false } ] }

/-- C3 counterexample: the record's `business_name` is present and the
`basic_info` rule declares no constraint, yet `validate_required_fields`
emits no outcome at all — not the claimed single passing `REQ-<FIELD>`
outcome — so this required field contributes nothing to the completeness
denominator. -/
theorem C3_counterexample :
    getField subA "business_name" ≠ none ∧
    validate_required_fields c3rules subA = .ok [] := by
  exact ⟨by decide, rfl⟩

/-- C3 amended: the claimed behaviour holds for the `coverage_info`
category only: each `coverage_info` rule contributes exactly one outcome,
and when the record's value for the field is present that outcome is the
single passing `REQ-<FIELD>` presence outcome with `info` severity; a
present, constraint-free `basic_info` field emits no outcome (see the
counterexample). -/
theorem C3_coverage_presence_outcome (q : QualityRules)
    (sub : ACORDSubmission) (req : List ValidationResult)
    (hreq : validate_required_fields q sub = .ok req) :
    (∃ b, evalBasicRules sub q.basic_info = .ok b ∧
      req = b ++ q.coverage_info.map (evalCoverageRule sub)) ∧
    (∀ rule ∈ q.coverage_info, getField sub rule.field ≠ none →
      evalCoverageRule sub rule =
        { rule_id := "REQ-" ++ pyUpper rule.field,
          rule_name := "Required Field: " ++ rule.description.getD rule.field,
          passed := true, severity := .info,
          error_message := none, field_name := some rule.field }) := by
  constructor
  · unfold validate_required_fields at hreq
    cases hb : evalBasicRules sub q.basic_info with
    | error e =>
        rw [hb] at hreq
        cases hreq
    | ok b =>
        rw [hb] at hreq
        exact ⟨b, rfl, (Except.ok.inj hreq).symm⟩
  · intro rule hrule hpresent
    unfold evalCoverageRule
    rw [if_neg (fun h => hpresent h.2)]

/-- The contract and outcome list of the C3 witness: one `coverage_info`
rule for the present field `business_name`. -/
def c3wRules : QualityRules :=
  { coverage_info := [ { field := "business_name", nullable := some false } ] }

/-- The outcome list `validate_required_fields` returns for `c3wRules`. -/
def c3wReq : List ValidationResult :=
  [ { rule_id := "REQ-BUSINESS_NAME",
      rule_name := "Required Field: business_name",
      passed := true, severity := .info,
      error_message := none, field_name := some "business_name" } ]

/-- C3 witness: the amended coverage-presence statement evaluated on the
concrete one-rule coverage contract. -/
theorem C3_coverage_presence_outcome_witness :
    (∃ b, evalBasicRules subA c3wRules.basic_info = .ok b ∧
      c3wReq = b ++ c3wRules.coverage_info.map (evalCoverageRule subA)) ∧
    (∀ rule ∈ c3wRules.coverage_info, getField subA rule.field ≠ none →
      evalCoverageRule subA rule =
        { rule_id := "REQ-" ++ pyUpper rule.field,
          rule_name := "Required Field: " ++ rule.description.getD rule.field,
          passed := true, severity := .info,
          error_message := none, field_name := some rule.field }) :=
  C3_coverage_presence_outcome c3wRules subA c3wReq rfl

/-- The contract of the C4 failing input: a `basic_info` rule declaring a
numeric range for `business_name`, whose record value `Test Corp` is not
parseable as a number. -/
def c4rules : QualityRules :=
  { basic_info := [ { field := "business_name", range := some (0, 10) } ] }

/-- C4: at the failing input, the unguarded `float(actual_value)` of the
range branch raises (`.error`), aborting the whole required-field
evaluation instead of producing a failing outcome and continuing — the
code contradicts the spec's error-handling contract. -/
theorem C4_range_coercion_raises :
    validate_required_fields c4rules subA =
      .error "could not convert string to float: Test Corp" := rfl

end AcordDQ
